import Mathlib

/-!
Verification of the Validation & Eligibility Engine of the document-verifier
repository.  The TypeScript sources (src/lib/validator.ts and the unnamed
document-verifier / eligibility-engine modules) are shallowly embedded below:
pure functions become Lean functions, JavaScript numbers appearing in this
core are exact integers or rationals, and JavaScript objects become explicit
records or association lists.

Conventions used throughout the embedding:
- JavaScript strings are Lean `String`s (the sources only manipulate ASCII
  data in the claims under consideration; UTF-16 code-unit subtleties do not
  arise for the inputs discussed here).
- Optional applicant fields are plain `String`s with `""` playing the role of
  `undefined`: every use in the sources first guards with JavaScript
  truthiness (`if (x)` or `x || d`), under which `""` and `undefined` are
  indistinguishable.
- `new Date()` is made explicit as a `now : Date` parameter at day
  granularity (the sources compare calendar dates produced by `parseISO`,
  which are midnight timestamps).
- The date library used by the sources is date-fns.  Its `parseISO` does NOT
  throw on a malformed string: it returns an Invalid Date (internal time
  value NaN), and `isBefore`, `<`, `differenceInYears` then yield `false`
  resp. NaN, every NaN comparison being `false`.  The embedding models an
  invalid date as `none` and reproduces exactly those comparison semantics.
  Consequently the `catch` branches of the sources around `parseISO` are
  unreachable; this is material to several claims below.
-/

/-- A valid calendar date (year, month 1..12, day 1..daysInMonth). -/
structure Date where
  year : Nat
  month : Nat
  day : Nat
deriving DecidableEq, Repr

/-- Gregorian leap-year rule. -/
def isLeapYear (y : Nat) : Bool :=
  (y % 4 == 0 && y % 100 != 0) || (y % 400 == 0)

/-- Number of days in a month of a given year. -/
def daysInMonth (y m : Nat) : Nat :=
  if m = 2 then (if isLeapYear y then 29 else 28)
  else if m = 4 ∨ m = 6 ∨ m = 9 ∨ m = 11 then 30
  else 31

/-- Strict chronological order on dates (lexicographic on year, month, day). -/
def dateLt (a b : Date) : Bool :=
  if a.year ≠ b.year then a.year < b.year
  else if a.month ≠ b.month then a.month < b.month
  else a.day < b.day

/-- Numeric value of a decimal digit character. -/
def digitVal (c : Char) : Nat := c.toNat - 48

/-- Embedding of date-fns `parseISO`, restricted to the `YYYY-MM-DD` grammar
that the system documents and emits for all its date fields.  Any other
string yields `none`, the model of the JavaScript Invalid Date; date-fns
`parseISO` never throws. -/
def parseISO (s : String) : Option Date :=
  match s.data with
  | [y1, y2, y3, y4, h1, m1, m2, h2, d1, d2] =>
    if y1.isDigit && y2.isDigit && y3.isDigit && y4.isDigit &&
       h1 = '-' && m1.isDigit && m2.isDigit && h2 = '-' &&
       d1.isDigit && d2.isDigit then
      let y := 1000 * digitVal y1 + 100 * digitVal y2 + 10 * digitVal y3 + digitVal y4
      let m := 10 * digitVal m1 + digitVal m2
      let d := 10 * digitVal d1 + digitVal d2
      if 1 ≤ m && m ≤ 12 && 1 ≤ d && d ≤ daysInMonth y m then some ⟨y, m, d⟩ else none
    else none
  | _ => none

/-- date-fns `isBefore` and the raw JavaScript `<` on `Date` values: an
Invalid Date (`none`) has time value NaN, and every NaN comparison is
`false`. -/
def jsDateLt : Option Date → Option Date → Bool
  | some a, some b => dateLt a b
  | _, _ => false

/-- True when the (month, day) of `a` comes strictly before the (month, day)
of `b` within a year. -/
def monthDayLt (a b : Date) : Bool :=
  if a.month ≠ b.month then a.month < b.month else a.day < b.day

/-- date-fns `differenceInYears l r` for valid dates: the signed number of
full calendar years from `r` to `l` (exact for the non-negative case used by
the sources, where `l` is today and `r` a birth date in the past). -/
def differenceInYears (l r : Date) : Int :=
  if monthDayLt l r then (l.year : Int) - r.year - 1 else (l.year : Int) - r.year

/-- date-fns `addMonths`: advance by `n` months, clamping the day to the
length of the target month (Jan 31 plus one month is Feb 28). -/
def addMonthsClamp (d : Date) (n : Nat) : Date :=
  let t := d.month - 1 + n
  let y := d.year + t / 12
  let m := t % 12 + 1
  ⟨y, m, min d.day (daysInMonth y m)⟩

/-- JavaScript `Date.prototype.setMonth` semantics: advance by `n` months and
let a day past the end of the target month roll over into the following month
(Mar 31 plus six months is Oct 1). -/
def addMonthsRoll (d : Date) (n : Nat) : Date :=
  let t := d.month - 1 + n
  let y := d.year + t / 12
  let m := t % 12 + 1
  if d.day ≤ daysInMonth y m then ⟨y, m, d.day⟩
  else if m = 12 then ⟨y + 1, 1, d.day - daysInMonth y m⟩
  else ⟨y, m + 1, d.day - daysInMonth y m⟩

/-- JavaScript `a < b` where `a` may be NaN (`none`): NaN comparisons are
always false. -/
def jsLtI : Option Int → Int → Bool
  | some a, b => a < b
  | none, _ => false

/-- JavaScript `a >= b` where `a` may be NaN (`none`). -/
def jsGeI : Option Int → Int → Bool
  | some a, b => b ≤ a
  | none, _ => false

/-- JavaScript `hay.includes(needle)` on the underlying character lists:
true when `needle` occurs contiguously inside `hay` (the empty needle always
occurs). -/
def charsContain (hay needle : List Char) : Bool :=
  match hay with
  | [] => needle.isEmpty
  | _ :: t => needle.isPrefixOf hay || charsContain t needle

/-- JavaScript `String.prototype.includes`. -/
def strIncludes (s sub : String) : Bool := charsContain s.data sub.data

/-- Character-list implementation of `toLowerCase` (ASCII, which covers every
string the sources lower-case). -/
def jsToLower (s : String) : String := String.mk (s.data.map Char.toLower)

/-- Character-list implementation of `toUpperCase` (ASCII). -/
def jsToUpper (s : String) : String := String.mk (s.data.map Char.toUpper)

/-- Whitespace class used by `trim` (ASCII whitespace; no input of interest
carries the further Unicode space characters). -/
def isJsSpace (c : Char) : Bool := c = ' ' || c = '\t' || c = '\n' || c = '\r'

/-- Character-list implementation of `String.prototype.trim`. -/
def jsTrim (s : String) : String :=
  String.mk (((s.data.dropWhile isJsSpace).reverse.dropWhile isJsSpace).reverse)

/-- Embedding of the dynamic-programming matrix of `levenshteinDistance` in
src/lib/validator.ts as the classic structural recursion it tabulates: the
matrix entry at (i, j) is the edit distance of the first i characters of one
string and the first j of the other, and the recurrence below is exactly the
one the loops implement. -/
def levAux : List Char → List Char → Nat
  | [], ys => ys.length
  | x :: xs, [] => (x :: xs).length
  | x :: xs, y :: ys =>
      if x = y then levAux xs ys
      else 1 + min (min (levAux xs ys) (levAux (x :: xs) ys)) (levAux xs (y :: ys))
termination_by xs ys => xs.length + ys.length

/-- src/lib/validator.ts `levenshteinDistance`. -/
def levenshteinDistance (s1 s2 : String) : Nat := levAux s1.data s2.data

/-- src/lib/validator.ts `calculateSimilarity`: pick the longer string, and
return `(longer.length - editDistance) / longer.length`, or 1 when the longer
string is empty. -/
def calculateSimilarity (str1 str2 : String) : ℚ :=
  let longer := if str1.length > str2.length then str1 else str2
  let shorter := if str1.length > str2.length then str2 else str1
  if longer.length = 0 then 1
  else ((longer.length : ℚ) - (levenshteinDistance longer shorter : ℚ)) / (longer.length : ℚ)

/-- One extracted datum: the raw value and the extractor-reported confidence
score. -/
structure ExtractedField where
  value : String
  confidence : Int
deriving DecidableEq, Repr

/-- The extracted-field mapping, as the entry list of the JavaScript object
(insertion order; `Object.entries` enumerates exactly this list and key
lookup is first-match). -/
abbrev ExtractedFields := List (String × ExtractedField)

/-- Key lookup, `extractedFields.key`. -/
def getField (ef : ExtractedFields) (k : String) : Option ExtractedField :=
  List.lookup k ef

/-- JavaScript-truthy value access `extractedFields.key?.value`: `none` when
the field is absent or its value is the empty string (both falsy in every
guard of the sources). -/
def fieldValue (ef : ExtractedFields) (k : String) : Option String :=
  match getField ef k with
  | some f => if f.value = "" then none else some f.value
  | none => none

/-- Applicant-supplied claims.  Each field is a plain string with `""`
standing for an absent (undefined) value; every access in the sources guards
with JavaScript truthiness first. -/
structure ApplicantData where
  name : String := ""
  dateOfBirth : String := ""
  passportNumber : String := ""
  nationality : String := ""
  intendedVisaType : String := ""
deriving DecidableEq, Repr

/-- One validation verdict, src/lib/validator.ts `ValidationCheck`. -/
structure ValidationCheck where
  field : String
  passed : Bool
  message : String
deriving DecidableEq, Repr

/-- Character class `[A-Z0-9<]` of the MRZ regular expression. -/
def isMRZChar (c : Char) : Bool :=
  ('A' ≤ c && c ≤ 'Z') || ('0' ≤ c && c ≤ '9') || c = '<'

/-- The regular-expression test `/^[A-Z0-9<]+$/.test s`: at least one
character and every character in the class. -/
def mrzCharsTest (s : String) : Bool :=
  !s.data.isEmpty && s.data.all isMRZChar

/-- src/lib/validator.ts `validateTD3Checksum` (character-class check of both
lines only; no check-digit arithmetic). -/
def validateTD3Checksum (line1 line2 : String) : Bool :=
  mrzCharsTest line1 && mrzCharsTest line2

/-- src/lib/validator.ts `validateTD1Checksum`. -/
def validateTD1Checksum (line1 line2 line3 : String) : Bool :=
  mrzCharsTest line1 && mrzCharsTest line2 && mrzCharsTest line3

/-- src/lib/validator.ts `validateMRZ`.  The `try`/`catch` of the source
never fires (all operations are total), so the embedding is the plain
classification chain; the final default `true` is the fail-open branch. -/
def validateMRZ (line1 line2 : String) (line3 : Option String) : Bool :=
  if line1.length = 44 && line2.length = 44 then
    validateTD3Checksum line1 line2
  else if line1.length = 30 && line2.length = 30 &&
          (match line3 with | some l3 => l3.length = 30 | none => false) then
    validateTD1Checksum line1 line2 (line3.getD "")
  else
    true

/-- Rule 1 of `validateDocument` (document expiry).  `parseISO` never throws,
so the `catch` branch of the source (a failed "Invalid expiry date format"
check) is unreachable: an unparseable value gives an Invalid Date, `isBefore`
is then `false`, and the check passes with the "Document valid until" text. -/
def expiryChecks (now : Date) (ef : ExtractedFields) : List ValidationCheck :=
  match fieldValue ef "expiryDate" with
  | none => []
  | some v =>
    let d := parseISO v
    let isExpired := jsDateLt d (some now)
    let base : ValidationCheck :=
      ⟨"expiryDate", !isExpired,
        if isExpired then "Document expired on " ++ v else "Document valid until " ++ v⟩
    if !isExpired && jsDateLt d (some (addMonthsRoll now 6)) then
      [base, ⟨"expiryDate", true, "Warning: Document expires within 6 months"⟩]
    else
      [base]

/-- Rule 2 of `validateDocument` (issue date).  Same unreachable `catch`: an
unparseable value compares `false` against today and the check fails with the
"Issue date is in the future" text rather than the format message. -/
def issueChecks (now : Date) (ef : ExtractedFields) : List ValidationCheck :=
  match fieldValue ef "issueDate" with
  | none => []
  | some v =>
    let isValidIssueDate := jsDateLt (parseISO v) (some now)
    [⟨"issueDate", isValidIssueDate,
      if isValidIssueDate then "Document issued on " ++ v else "Issue date is in the future"⟩]

/-- Rule 3 of `validateDocument` (fuzzy name match). -/
def nameChecks (ef : ExtractedFields) (app : ApplicantData) : List ValidationCheck :=
  if app.name ≠ "" && ((fieldValue ef "fullName").isSome || (fieldValue ef "firstName").isSome) then
    let extractedName :=
      ((fieldValue ef "fullName").getD
        ((fieldValue ef "firstName").getD "" ++ " " ++ (fieldValue ef "lastName").getD "")) |> jsTrim |> jsToLower
    let applicantName := app.name |> jsTrim |> jsToLower
    let namesMatch :=
      strIncludes extractedName applicantName ||
      strIncludes applicantName extractedName ||
      (calculateSimilarity extractedName applicantName > 7/10 : Bool)
    [⟨"name", namesMatch,
      if namesMatch then "Name matches application"
      else "Name mismatch: Document shows \"" ++ (fieldValue ef "fullName").getD extractedName ++
           "\", application shows \"" ++ app.name ++ "\""⟩]
  else []

/-- Rule 4 of `validateDocument` (date of birth and age).  The equality check
is exact string equality.  The age check is always emitted when both inputs
are present: with a parseable DOB it tests the computed age against
`[18, 120)`; with an unparseable DOB the age is NaN, both comparisons are
false, and the check fails with "Invalid age calculated" — the `catch` branch
of the source (a failed "Invalid date of birth format" check) is
unreachable. -/
def dobChecks (now : Date) (ef : ExtractedFields) (app : ApplicantData) : List ValidationCheck :=
  if app.dateOfBirth ≠ "" then
    match fieldValue ef "dateOfBirth" with
    | none => []
    | some v =>
      let dobMatch := app.dateOfBirth = v
      let eqCheck : ValidationCheck :=
        ⟨"dateOfBirth", dobMatch,
          if dobMatch then "Date of birth matches application"
          else "DOB mismatch: Document shows \"" ++ v ++ "\", application shows \"" ++ app.dateOfBirth ++ "\""⟩
      let age := (parseISO v).map (differenceInYears now)
      let ageOk := jsGeI age 18 && jsLtI age 120
      [eqCheck,
       ⟨"age", ageOk,
         if ageOk then "Applicant age: " ++ toString (age.getD 0) ++ " years"
         else if jsLtI age 18 then "Applicant is under 18 - may require guardian"
         else "Invalid age calculated"⟩]
  else []

/-- Rule 5 of `validateDocument` (document number). -/
def docNumChecks (ef : ExtractedFields) (app : ApplicantData) : List ValidationCheck :=
  if app.passportNumber ≠ "" then
    match fieldValue ef "documentNumber" with
    | none => []
    | some v =>
      let numberMatch := jsTrim (jsToUpper app.passportNumber) = jsTrim (jsToUpper v)
      [⟨"documentNumber", numberMatch,
        if numberMatch then "Document number matches application"
        else "Document number mismatch: Document shows \"" ++ v ++
             "\", application shows \"" ++ app.passportNumber ++ "\""⟩]
  else []

/-- Rule 6 of `validateDocument` (nationality). -/
def nationalityChecks (ef : ExtractedFields) (app : ApplicantData) : List ValidationCheck :=
  if app.nationality ≠ "" then
    match fieldValue ef "nationality" with
    | none => []
    | some v =>
      let nationalityMatch := jsTrim (jsToUpper app.nationality) = jsTrim (jsToUpper v)
      [⟨"nationality", nationalityMatch,
        if nationalityMatch then "Nationality matches application"
        else "Nationality mismatch: Document shows \"" ++ v ++
             "\", application shows \"" ++ app.nationality ++ "\""⟩]
  else []

/-- Rule 7 of `validateDocument` (MRZ structural check). -/
def mrzChecks (ef : ExtractedFields) : List ValidationCheck :=
  match fieldValue ef "mrzLine1", fieldValue ef "mrzLine2" with
  | some l1, some l2 =>
    let mrzValid := validateMRZ l1 l2 ((getField ef "mrzLine3").map (fun f => f.value))
    [⟨"mrzChecksum", mrzValid,
      if mrzValid then "MRZ checksum validation passed"
      else "MRZ checksum validation failed - possible forgery or OCR error"⟩]
  | _, _ => []

/-- The recognized document types of rule 8. -/
def validTypes : List String :=
  ["passport", "visa", "nationalId", "drivingLicense", "nationalid", "drivinglicense"]

/-- Rule 8 of `validateDocument` (document type). -/
def docTypeChecks (ef : ExtractedFields) : List ValidationCheck :=
  match fieldValue ef "documentType" with
  | none => []
  | some v =>
    let isValidType := validTypes.contains (jsToLower v)
    [⟨"documentType", isValidType,
      if isValidType then "Document type: " ++ v
      else "Unrecognized document type"⟩]

/-- Rule 9 of `validateDocument` (aggregate confidence gate), always emitted. -/
def confidenceChecks (ef : ExtractedFields) : List ValidationCheck :=
  let lowConfidenceFields := (ef.filter (fun p => p.2.confidence < 60)).map (fun p => p.1)
  if lowConfidenceFields.length > 0 then
    [⟨"confidence", false,
      "Low confidence in fields: " ++ String.intercalate ", " lowConfidenceFields ++
      " - manual review recommended"⟩]
  else
    [⟨"confidence", true, "All extracted fields have acceptable confidence scores"⟩]

/-- src/lib/validator.ts `validateDocument`: the nine rules in source order,
each contributing its emitted checks in sequence. -/
def validateDocument (now : Date) (ef : ExtractedFields) (app : ApplicantData) : List ValidationCheck :=
  expiryChecks now ef ++ issueChecks now ef ++ nameChecks ef app ++ dobChecks now ef app ++
  docNumChecks ef app ++ nationalityChecks ef app ++ mrzChecks ef ++ docTypeChecks ef ++
  confidenceChecks ef

/-- Eligibility verdict, eligibility-engine `EligibilityResult`.  The source
declares `visaType` optional but populates it in every branch, so it is a
plain field here. -/
structure EligibilityResult where
  eligible : Bool
  reason : String
  visaType : String
deriving DecidableEq, Repr

/-- One static eligibility policy record. -/
structure EligibilityPolicy where
  visaType : String
  minAge : Int
  maxAge : Option Int
  minPassportValidity : Nat
  allowedNationalities : Option (List String)
  deniedNationalities : Option (List String)
  requiresValidPassport : Bool
deriving DecidableEq, Repr

/-- The tourist policy of the static table. -/
def touristPolicy : EligibilityPolicy :=
  ⟨"tourist", 18, none, 6, none, none, true⟩

/-- The static policy table, keyed by lower-cased visa type. -/
def eligibilityPolicies (k : String) : Option EligibilityPolicy :=
  if k = "tourist" then some touristPolicy
  else if k = "business" then some ⟨"business", 21, none, 6, none, none, true⟩
  else if k = "student" then some ⟨"student", 16, some 35, 12, none, none, true⟩
  else if k = "work" then some ⟨"work", 18, some 65, 12, none, none, true⟩
  else if k = "transit" then some ⟨"transit", 18, none, 3, none, none, true⟩
  else none

/-- The `visaType` local of `assessEligibility`:
`applicantData.intendedVisaType || 'tourist'`. -/
def requestedVisaType (app : ApplicantData) : String :=
  if app.intendedVisaType = "" then "tourist" else app.intendedVisaType

/-- Policy selection `eligibilityPolicies[visaType.toLowerCase()] ||
eligibilityPolicies.tourist`. -/
def resolvePolicy (vt : String) : EligibilityPolicy :=
  (eligibilityPolicies (jsToLower vt)).getD touristPolicy

/-- The four critical check fields of `assessEligibility`. -/
def criticalFieldNames : List String :=
  ["expiryDate", "documentNumber", "dateOfBirth", "name"]

/-- The `criticalFailures` local of `assessEligibility`: the critical checks,
then the failed ones among them, in sequence order. -/
def criticalFailuresOf (checks : List ValidationCheck) : List ValidationCheck :=
  (checks.filter (fun c => criticalFieldNames.contains c.field)).filter (fun c => !c.passed)

/-- The age used by the eligibility age gate: NaN (`none`) when the DOB is
absent, empty, or unparseable; in each of those cases both age comparisons of
the gate are false and the gate is skipped, exactly as with NaN in the
source. -/
def eligAge (now : Date) (ef : ExtractedFields) : Option Int :=
  (fieldValue ef "dateOfBirth").bind (fun v => (parseISO v).map (differenceInYears now))

/-- The guard `policy.maxAge && age > policy.maxAge` of the source (the table
never stores 0, the only falsy number, so truthiness of `maxAge` is
presence). -/
def maxAgeExceeded (maxAge : Option Int) (age : Option Int) : Bool :=
  match maxAge, age with
  | some m, some a => m < a
  | _, _ => false

/-- The guard of eligibility gate 3: expiry present (truthy) and strictly
before now plus the required validity months; an unparseable expiry is NaN
and never triggers the gate. -/
def validityGateFails (now : Date) (months : Nat) (ef : ExtractedFields) : Bool :=
  match fieldValue ef "expiryDate" with
  | some v => jsDateLt (parseISO v) (some (addMonthsClamp now months))
  | none => false

/-- The guard of eligibility gate 4 (`allowedNationalities` set and extracted
nationality not a member). -/
def allowedGateFails (allowed : Option (List String)) (nat : Option String) : Bool :=
  match allowed, nat with
  | some l, some v => !(l.contains (jsToUpper v))
  | _, _ => false

/-- The guard of eligibility gate 5 (`deniedNationalities` set and extracted
nationality a member). -/
def deniedGateFails (denied : Option (List String)) (nat : Option String) : Bool :=
  match denied, nat with
  | some l, some v => l.contains (jsToUpper v)
  | _, _ => false

/-- The `lowConfidenceCount` local of `assessEligibility`. -/
def lowConfidenceCount (ef : ExtractedFields) : Nat :=
  (ef.filter (fun p => p.2.confidence < 60)).length

/-- The `passRate` local: passed checks over total checks, as an exact
rational when there is at least one check.  With zero checks the JavaScript
value is NaN and the comparison `passRate < 0.7` is false, so the caller
guards on emptiness before comparing. -/
def passRateOf (checks : List ValidationCheck) : ℚ :=
  ((checks.filter (fun c => c.passed)).length : ℚ) / (checks.length : ℚ)

/-- Eligibility-engine `assessEligibility`: the short-circuiting gate chain
in source order.  Each rejection and the final acceptance populate `visaType`
with the `visaType` local, that is, the originally requested string (with the
`tourist` default), never the resolved policy key.  The `catch` branches of
gates 2 and 3 are unreachable (`parseISO` does not throw; NaN comparisons are
false, so unparseable dates skip their gates). -/
def assessEligibility (now : Date) (ef : ExtractedFields) (app : ApplicantData)
    (checks : List ValidationCheck) : EligibilityResult :=
  let vt := requestedVisaType app
  let policy := resolvePolicy vt
  let age := eligAge now ef
  if policy.requiresValidPassport && (criticalFailuresOf checks).length > 0 then
    ⟨false,
      "Critical validation failures: " ++
        String.intercalate "; " ((criticalFailuresOf checks).map (fun c => c.message)),
      vt⟩
  else if jsLtI age policy.minAge then
    ⟨false,
      "Applicant age (" ++ toString (age.getD 0) ++ ") is below minimum age requirement (" ++
        toString policy.minAge ++ ") for " ++ vt ++ " visa",
      vt⟩
  else if maxAgeExceeded policy.maxAge age then
    ⟨false,
      "Applicant age (" ++ toString (age.getD 0) ++ ") exceeds maximum age requirement (" ++
        toString (policy.maxAge.getD 0) ++ ") for " ++ vt ++ " visa",
      vt⟩
  else if validityGateFails now policy.minPassportValidity ef then
    ⟨false,
      "Passport must be valid for at least " ++ toString policy.minPassportValidity ++
        " months from today. Current expiry: " ++ (fieldValue ef "expiryDate").getD "",
      vt⟩
  else if allowedGateFails policy.allowedNationalities (fieldValue ef "nationality") then
    ⟨false,
      "Nationality " ++ jsToUpper ((fieldValue ef "nationality").getD "") ++
        " is not eligible for " ++ vt ++ " visa",
      vt⟩
  else if deniedGateFails policy.deniedNationalities (fieldValue ef "nationality") then
    ⟨false,
      "Nationality " ++ jsToUpper ((fieldValue ef "nationality").getD "") ++
        " is not eligible for " ++ vt ++ " visa due to policy restrictions",
      vt⟩
  else if lowConfidenceCount ef > 3 then
    ⟨false,
      "Document quality insufficient - too many low-confidence field extractions. Manual review required.",
      vt⟩
  else if (if checks.length = 0 then false else (passRateOf checks < 7/10 : Bool)) then
    ⟨false,
      "Insufficient validation pass rate (" ++ toString (Int.floor (passRateOf checks * 100 + 1/2)) ++
        "%). Multiple checks failed.",
      vt⟩
  else
    ⟨true,
      "Applicant meets all eligibility requirements for " ++ vt ++
        " visa. Document is valid and all required fields verified.",
      vt⟩

/-- JavaScript `Math.round`: the floor of the argument plus one half. -/
def jsRound (q : ℚ) : Int := Int.floor (q + 1/2)

/-- Document-verifier `calculateOverallConfidence`: the average of the
strictly positive field confidences (default 50 when there are none),
weighted 60/40 with the validation pass-rate score (70 when there are no
checks), rounded and clamped to `[0, 100]`. -/
def calculateOverallConfidence (ef : ExtractedFields) (checks : List ValidationCheck) : Int :=
  let fieldConfidences := (ef.map (fun p => p.2.confidence)).filter (fun c => c > 0)
  let avgFieldConfidence : ℚ :=
    if fieldConfidences.length > 0 then
      (fieldConfidences.sum : ℚ) / (fieldConfidences.length : ℚ)
    else 50
  let passedChecks := (checks.filter (fun c => c.passed)).length
  let validationScore : ℚ :=
    if checks.length > 0 then ((passedChecks : ℚ) / (checks.length : ℚ)) * 100 else 70
  min 100 (max 0 (jsRound (avgFieldConfidence * (6/10) + validationScore * (4/10))))

/-- Document-verifier `generateRecommendations`: two fixed affirmative lines
when nothing failed and the applicant is eligible; otherwise the additive
substring-keyed advisory lines. -/
def generateRecommendations (checks : List ValidationCheck) (elig : EligibilityResult) :
    List String :=
  let failedChecks := checks.filter (fun c => !c.passed)
  if failedChecks.length = 0 && elig.eligible then
    ["Document appears valid and applicant is eligible",
     "Proceed with visa application processing"]
  else
    (if failedChecks.any (fun c => strIncludes c.field "expiry" || strIncludes c.field "Expiry") then
      ["Document has expired - request renewed document"] else []) ++
    (if failedChecks.any (fun c => strIncludes c.field "MRZ" || strIncludes c.field "checksum") then
      ["MRZ validation failed - verify document authenticity"] else []) ++
    (if failedChecks.any (fun c => strIncludes c.field "name" || strIncludes c.field "Name") then
      ["Name mismatch detected - request clarification from applicant"] else []) ++
    (if !elig.eligible then
      ["Applicant not eligible for requested visa type",
       "Contact applicant for additional documentation or alternate visa type"] else []) ++
    (if failedChecks.length > 3 then
      ["Multiple validation failures - manual review required"] else [])

theorem levAux_nil_left (ys : List Char) : levAux [] ys = ys.length := by
  simp [levAux]

theorem levAux_nil_right (xs : List Char) : levAux xs [] = xs.length := by
  cases xs <;> simp [levAux]

theorem levAux_self (l : List Char) : levAux l l = 0 := by
  induction l with
  | nil => simp [levAux]
  | cons x xs ih => simp [levAux, ih]

theorem levAux_comm (xs : List Char) : ∀ ys : List Char, levAux xs ys = levAux ys xs := by
  induction xs with
  | nil => intro ys; rw [levAux_nil_left, levAux_nil_right]
  | cons x xs ih1 =>
    intro ys
    induction ys with
    | nil => rw [levAux_nil_left, levAux_nil_right]
    | cons y ys ih2 =>
      by_cases h : x = y
      · subst h
        simp [levAux, ih1 ys]
      · have hne : ¬ y = x := fun hyx => h hyx.symm
        simp only [levAux, if_neg h, if_neg hne]
        rw [ih1 ys, ih1 (y :: ys), ih2]
        omega

theorem levAux_le_max (xs : List Char) :
    ∀ ys : List Char, levAux xs ys ≤ max xs.length ys.length := by
  induction xs with
  | nil => intro ys; rw [levAux_nil_left]; simp
  | cons x xs ih1 =>
    intro ys
    induction ys with
    | nil => rw [levAux_nil_right]; simp
    | cons y ys ih2 =>
      by_cases h : x = y
      · subst h
        have h1 := ih1 ys
        have e : levAux (x :: xs) (x :: ys) = levAux xs ys := by simp [levAux]
        rw [e]
        simp only [List.length_cons]
        omega
      · have h1 := ih1 ys
        simp only [levAux, if_neg h, List.length_cons]
        omega

theorem levenshteinDistance_comm (a b : String) :
    levenshteinDistance a b = levenshteinDistance b a :=
  levAux_comm a.data b.data

theorem levenshteinDistance_self (s : String) : levenshteinDistance s s = 0 :=
  levAux_self s.data

theorem levenshteinDistance_le_max (a b : String) :
    levenshteinDistance a b ≤ max a.length b.length :=
  levAux_le_max a.data b.data

theorem calculateSimilarity_eq_formula (a b : String) :
    calculateSimilarity a b =
      1 - (levenshteinDistance a b : ℚ) / (max a.length b.length : ℚ) := by
  by_cases hgt : a.length > b.length
  · have hL : a.length ≠ 0 := by omega
    have hcode : calculateSimilarity a b =
        ((a.length : ℚ) - (levenshteinDistance a b : ℚ)) / (a.length : ℚ) := by
      unfold calculateSimilarity
      simp only [if_pos hgt, if_neg hL]
    have hMq : max (a.length : ℚ) (b.length : ℚ) = (a.length : ℚ) :=
      max_eq_left (by exact_mod_cast Nat.le_of_lt hgt)
    have hLq : (a.length : ℚ) ≠ 0 := Nat.cast_ne_zero.mpr hL
    rw [hcode, hMq]
    field_simp
  · by_cases hb : b.length = 0
    · have ha : a.length = 0 := by omega
      have hadata : a.data = [] := List.length_eq_zero.mp ha
      have hbdata : b.data = [] := List.length_eq_zero.mp hb
      have hae : a = "" := String.ext hadata
      have hbe : b = "" := String.ext hbdata
      rw [hae, hbe]
      norm_num [calculateSimilarity, levenshteinDistance, levAux]
    · have hcode : calculateSimilarity a b =
          ((b.length : ℚ) - (levenshteinDistance b a : ℚ)) / (b.length : ℚ) := by
        unfold calculateSimilarity
        simp only [if_neg hgt, if_neg hb]
      have hMq : max (a.length : ℚ) (b.length : ℚ) = (b.length : ℚ) :=
        max_eq_right (by exact_mod_cast Nat.le_of_not_lt hgt)
      have hLq : (b.length : ℚ) ≠ 0 := Nat.cast_ne_zero.mpr hb
      rw [hcode, levenshteinDistance_comm b a, hMq]
      field_simp

theorem calculateSimilarity_nonneg (a b : String) : 0 ≤ calculateSimilarity a b := by
  rw [calculateSimilarity_eq_formula]
  have hle : (levenshteinDistance a b : ℚ) ≤ max (a.length : ℚ) (b.length : ℚ) := by
    have h := levenshteinDistance_le_max a b
    have : ((levenshteinDistance a b : ℕ) : ℚ) ≤ ((max a.length b.length : ℕ) : ℚ) := by
      exact_mod_cast h
    simpa [Nat.cast_max] using this
  have hM : (0 : ℚ) ≤ max (a.length : ℚ) (b.length : ℚ) :=
    le_max_of_le_left (Nat.cast_nonneg _)
  have hdiv : (levenshteinDistance a b : ℚ) / max (a.length : ℚ) (b.length : ℚ) ≤ 1 :=
    div_le_one_of_le₀ hle hM
  linarith

theorem calculateSimilarity_le_one (a b : String) : calculateSimilarity a b ≤ 1 := by
  rw [calculateSimilarity_eq_formula]
  have hdiv : (0 : ℚ) ≤ (levenshteinDistance a b : ℚ) / max (a.length : ℚ) (b.length : ℚ) :=
    div_nonneg (Nat.cast_nonneg _) (le_max_of_le_left (Nat.cast_nonneg _))
  linarith

theorem calculateSimilarity_comm (a b : String) :
    calculateSimilarity a b = calculateSimilarity b a := by
  rw [calculateSimilarity_eq_formula, calculateSimilarity_eq_formula,
      levenshteinDistance_comm, max_comm]

theorem calculateSimilarity_self (s : String) : calculateSimilarity s s = 1 := by
  rw [calculateSimilarity_eq_formula, levenshteinDistance_self]
  simp

/-- C8: `calculateSimilarity` always returns a (finite, rational) value in
`[0, 1]`, equal to `1 - levenshtein(a, b) / max(|a|, |b|)`; it is symmetric;
it maps every string paired with itself to 1; and the two empty strings to 1. -/
theorem claim_C8_calculateSimilarity_spec (a b s : String) :
    0 ≤ calculateSimilarity a b ∧ calculateSimilarity a b ≤ 1 ∧
    calculateSimilarity a b =
      1 - (levenshteinDistance a b : ℚ) / (max a.length b.length : ℚ) ∧
    calculateSimilarity a b = calculateSimilarity b a ∧
    calculateSimilarity s s = 1 ∧
    calculateSimilarity "" "" = 1 :=
  ⟨calculateSimilarity_nonneg a b, calculateSimilarity_le_one a b,
   calculateSimilarity_eq_formula a b, calculateSimilarity_comm a b,
   calculateSimilarity_self s, calculateSimilarity_self ""⟩

/-- Restatement of the MRZ structural rule in the words of the specification:
classify exactly 44/44 as TD-3 (any third line ignored), exactly 30/30/30 as
TD-1, treat every other length combination as valid by default, and for a
classified format pass iff every participating line matches `[A-Z0-9<]+`. -/
def mrzSpecification (l1 l2 : String) (l3 : Option String) : Bool :=
  if l1.length = 44 ∧ l2.length = 44 then
    mrzCharsTest l1 && mrzCharsTest l2
  else
    match l3 with
    | some t =>
      if l1.length = 30 ∧ l2.length = 30 ∧ t.length = 30 then
        mrzCharsTest l1 && mrzCharsTest l2 && mrzCharsTest t
      else true
    | none => true

/-- C7: `validateMRZ` classifies two 44-character lines as TD-3 and three
30-character lines as TD-1; for a classified format it returns true iff every
participating line matches `[A-Z0-9<]+` (so content beyond the character
class is never inspected, and a lowercase letter in a 44-character line
fails); every other length combination is fail-open true.  The internal
error branch of the source is unreachable because every operation involved is
total. -/
theorem claim_C7_validateMRZ_spec (l1 l2 : String) (l3 : Option String) :
    validateMRZ l1 l2 l3 = mrzSpecification l1 l2 l3 := by
  unfold validateMRZ mrzSpecification validateTD3Checksum validateTD1Checksum
  cases l3 with
  | none =>
    by_cases h1 : l1.length = 44 <;> by_cases h2 : l2.length = 44 <;>
      simp [h1, h2]
  | some t =>
    by_cases h1 : l1.length = 44 <;> by_cases h2 : l2.length = 44 <;>
    by_cases h3 : l1.length = 30 <;> by_cases h4 : l2.length = 30 <;>
    by_cases h5 : t.length = 30 <;>
      simp [h1, h2, h3, h4, h5]

/-- The eligibility engine with the pass-rate rule removed, following the
specification sentence that with zero checks "this rule is skipped" and the
gate counts as automatically passing.  All other gates are those of
`assessEligibility`, unchanged. -/
def assessEligibilityRateGateSkipped (now : Date) (ef : ExtractedFields) (app : ApplicantData)
    (checks : List ValidationCheck) : EligibilityResult :=
  let vt := requestedVisaType app
  let policy := resolvePolicy vt
  let age := eligAge now ef
  if policy.requiresValidPassport && (criticalFailuresOf checks).length > 0 then
    ⟨false,
      "Critical validation failures: " ++
        String.intercalate "; " ((criticalFailuresOf checks).map (fun c => c.message)),
      vt⟩
  else if jsLtI age policy.minAge then
    ⟨false,
      "Applicant age (" ++ toString (age.getD 0) ++ ") is below minimum age requirement (" ++
        toString policy.minAge ++ ") for " ++ vt ++ " visa",
      vt⟩
  else if maxAgeExceeded policy.maxAge age then
    ⟨false,
      "Applicant age (" ++ toString (age.getD 0) ++ ") exceeds maximum age requirement (" ++
        toString (policy.maxAge.getD 0) ++ ") for " ++ vt ++ " visa",
      vt⟩
  else if validityGateFails now policy.minPassportValidity ef then
    ⟨false,
      "Passport must be valid for at least " ++ toString policy.minPassportValidity ++
        " months from today. Current expiry: " ++ (fieldValue ef "expiryDate").getD "",
      vt⟩
  else if allowedGateFails policy.allowedNationalities (fieldValue ef "nationality") then
    ⟨false,
      "Nationality " ++ jsToUpper ((fieldValue ef "nationality").getD "") ++
        " is not eligible for " ++ vt ++ " visa",
      vt⟩
  else if deniedGateFails policy.deniedNationalities (fieldValue ef "nationality") then
    ⟨false,
      "Nationality " ++ jsToUpper ((fieldValue ef "nationality").getD "") ++
        " is not eligible for " ++ vt ++ " visa due to policy restrictions",
      vt⟩
  else if lowConfidenceCount ef > 3 then
    ⟨false,
      "Document quality insufficient - too many low-confidence field extractions. Manual review required.",
      vt⟩
  else
    ⟨true,
      "Applicant meets all eligibility requirements for " ++ vt ++
        " visa. Document is valid and all required fields verified.",
      vt⟩

/-- C6: `assessEligibility` never divides by zero in its pass-rate rule.  The
embedding is total, so the call cannot crash, and on an empty check sequence
the engine coincides with the engine whose pass-rate gate is removed
altogether: in JavaScript `0 / 0` is NaN and `NaN < 0.7` is false, so an
empty sequence never by itself produces a pass-rate rejection. -/
theorem claim_C6_assessEligibility_empty_checks (now : Date) (ef : ExtractedFields)
    (app : ApplicantData) :
    assessEligibility now ef app [] = assessEligibilityRateGateSkipped now ef app [] := rfl

/-- The amended overall-confidence formula: the field average runs over the
present fields with confidence strictly greater than 0 (present fields with
confidence 0 are excluded, not averaged in as zeros), defaulting to 50 when
no field has positive confidence; the validation score is 100 times the pass
rate, or 70 with zero checks; combined 60/40, rounded, clamped to
`[0, 100]`. -/
def overallConfidenceAmended (ef : ExtractedFields) (checks : List ValidationCheck) : Int :=
  let positives := (ef.map (fun p => p.2.confidence)).filter (fun c => c > 0)
  let avgField : ℚ :=
    if positives = [] then 50 else (positives.sum : ℚ) / (positives.length : ℚ)
  let score : ℚ :=
    if checks = [] then 70
    else 100 * (((checks.filter (fun c => c.passed)).length : ℚ) / (checks.length : ℚ))
  min 100 (max 0 (jsRound ((6/10 : ℚ) * avgField + (4/10 : ℚ) * score)))

/-- The overall-confidence formula in the words of claim C3: the field
average runs over ALL fields present in the mapping, counting present fields
with confidence 0 at value zero, with the 50 default only when no field has
confidence strictly greater than 0. -/
def overallConfidenceClaimed (ef : ExtractedFields) (checks : List ValidationCheck) : Int :=
  let confs := ef.map (fun p => p.2.confidence)
  let avgField : ℚ :=
    if confs.any (fun c => c > 0) then (confs.sum : ℚ) / (confs.length : ℚ) else 50
  let score : ℚ :=
    if checks = [] then 70
    else 100 * (((checks.filter (fun c => c.passed)).length : ℚ) / (checks.length : ℚ))
  min 100 (max 0 (jsRound ((6/10 : ℚ) * avgField + (4/10 : ℚ) * score)))

/-- C3 counterexample: a mapping with one field of confidence 80 and one
present field of confidence 0, and no checks.  The code excludes the
zero-confidence field from the average (average 80, result 76), while the
claimed formula counts it at zero (average 40, result 52). -/
theorem claim_C3_counterexample :
    calculateOverallConfidence
        [("fullName", ⟨"John Doe", 80⟩), ("sex", ⟨"M", 0⟩)] [] = 76 ∧
    overallConfidenceClaimed
        [("fullName", ⟨"John Doe", 80⟩), ("sex", ⟨"M", 0⟩)] [] = 52 ∧
    calculateOverallConfidence
        [("fullName", ⟨"John Doe", 80⟩), ("sex", ⟨"M", 0⟩)] [] ≠
      overallConfidenceClaimed
        [("fullName", ⟨"John Doe", 80⟩), ("sex", ⟨"M", 0⟩)] [] := by
  refine ⟨?_, ?_, ?_⟩ <;>
    norm_num [calculateOverallConfidence, overallConfidenceClaimed, jsRound,
      List.filter, List.sum]

/-- C3 as amended: `calculateOverallConfidence` is exactly the 60/40 rounded,
clamped combination, with the field average taken over the strictly positive
confidences only and the 70 fallback for zero checks. -/
theorem claim_C3_calculateOverallConfidence_amended (ef : ExtractedFields)
    (checks : List ValidationCheck) :
    calculateOverallConfidence ef checks = overallConfidenceAmended ef checks := by
  unfold calculateOverallConfidence overallConfidenceAmended
  by_cases hc : checks = [] <;>
    simp only [hc, gt_iff_lt, List.length_pos, ne_eq, ite_not, List.length_nil,
      lt_self_iff_false, if_false, if_true, eq_self_iff_true] <;>
    exact congrArg (fun q : ℚ => min 100 (max 0 (jsRound q))) (by ring)

/-- C4 counterexample: with requested visa type "spaceflight" the policy
resolution falls back to the tourist policy (resolved key "tourist"), yet the
accepting branch — not the first rejection branch — still reports
`visaType = "spaceflight"`, the originally requested string. -/
theorem claim_C4_counterexample :
    (assessEligibility ⟨2026, 10, 11⟩ [] ⟨"", "", "", "", "spaceflight"⟩ []).eligible = true ∧
    (assessEligibility ⟨2026, 10, 11⟩ [] ⟨"", "", "", "", "spaceflight"⟩ []).visaType =
      "spaceflight" ∧
    (resolvePolicy (requestedVisaType ⟨"", "", "", "", "spaceflight"⟩)).visaType = "tourist" ∧
    "spaceflight" ≠ "tourist" := by
  refine ⟨by decide, by decide, by decide, by decide⟩

/-- C4 as amended: EVERY branch of `assessEligibility`, the first rejection
included, populates `visaType` with the originally requested visa-type string
(defaulted to "tourist" when the request is absent or empty), never with the
resolved policy key. -/
theorem claim_C4_visaType_requested (now : Date) (ef : ExtractedFields) (app : ApplicantData)
    (checks : List ValidationCheck) :
    (assessEligibility now ef app checks).visaType = requestedVisaType app := by
  simp only [assessEligibility]
  repeat' split
  all_goals rfl

theorem criticalFailuresOf_eq_filter (checks : List ValidationCheck) :
    criticalFailuresOf checks =
      checks.filter (fun c => criticalFieldNames.contains c.field && !c.passed) := by
  unfold criticalFailuresOf
  rw [List.filter_filter]
  exact List.filter_congr (fun a _ => by rw [Bool.and_comm])

/-- C1: whenever the resolved policy requires a valid passport and at least
one critical check (field among expiryDate, documentNumber, dateOfBirth,
name) failed, `assessEligibility` returns the first rejection: ineligible,
with a reason joining the messages of exactly the failed critical checks by
"; " — regardless of the extracted fields, the current date, and every other
check in the sequence, which is the short-circuit before all later rules. -/
theorem claim_C1_critical_failure_shortcircuit (now : Date) (ef : ExtractedFields)
    (app : ApplicantData) (checks : List ValidationCheck)
    (h1 : (resolvePolicy (requestedVisaType app)).requiresValidPassport = true)
    (h2 : criticalFailuresOf checks ≠ []) :
    assessEligibility now ef app checks =
      ⟨false,
        "Critical validation failures: " ++
          String.intercalate "; "
            ((checks.filter (fun c => criticalFieldNames.contains c.field && !c.passed)).map
              (fun c => c.message)),
        requestedVisaType app⟩ := by
  have h2' : 0 < (criticalFailuresOf checks).length := List.length_pos.mpr h2
  simp only [assessEligibility]
  rw [if_pos]
  · rw [criticalFailuresOf_eq_filter]
  · simp [h1, h2']

/-- Witness for C1 at a concrete input: one failed name check under the
default tourist policy. -/
theorem claim_C1_witness :
    (resolvePolicy (requestedVisaType ⟨"", "", "", "", ""⟩)).requiresValidPassport = true ∧
    criticalFailuresOf [⟨"name", false, "nm"⟩] ≠ [] ∧
    assessEligibility ⟨2026, 10, 11⟩ [] ⟨"", "", "", "", ""⟩ [⟨"name", false, "nm"⟩] =
      ⟨false, "Critical validation failures: nm", "tourist"⟩ := by
  refine ⟨by decide, by decide, ?_⟩
  have h := claim_C1_critical_failure_shortcircuit ⟨2026, 10, 11⟩ []
    ⟨"", "", "", "", ""⟩ [⟨"name", false, "nm"⟩] (by decide) (by decide)
  exact h.trans (by decide)

/-- C2 failing input: an expiry value that fails calendar parsing.  Because
date-fns `parseISO` returns an Invalid Date instead of throwing, `isBefore`
is false, and the expiry rule emits exactly one PASSED check reading
"Document valid until not-a-date" — not the single failed "Invalid expiry
date format" check the specification describes (that `catch` branch of the
source is unreachable).  The result is independent of the current date. -/
theorem claim_C2_unparseable_expiry_passes (now : Date) :
    validateDocument now [("expiryDate", ⟨"not-a-date", 90⟩)] ⟨"", "", "", "", ""⟩ =
      [⟨"expiryDate", true, "Document valid until not-a-date"⟩,
       ⟨"confidence", true, "All extracted fields have acceptable confidence scores"⟩] := by
  rfl

/-- C5 failing input: a date-of-birth value that fails calendar parsing while
the applicant claims "1990-01-15".  The equality check is emitted (failed,
exact string comparison), but the additional check is a failed `age` check
reading "Invalid age calculated" — not the failed `dateOfBirth` format check
the specification describes; that `catch` branch is unreachable because
date-fns `differenceInYears` yields NaN rather than throwing, and both NaN
age comparisons are false. -/
theorem claim_C5_unparseable_dob_age_check (now : Date) :
    validateDocument now [("dateOfBirth", ⟨"garbage", 90⟩)] ⟨"", "1990-01-15", "", "", ""⟩ =
      [⟨"dateOfBirth", false,
         "DOB mismatch: Document shows \"garbage\", application shows \"1990-01-15\""⟩,
       ⟨"age", false, "Invalid age calculated"⟩,
       ⟨"confidence", true, "All extracted fields have acceptable confidence scores"⟩] := by
  rfl

theorem maxAgeExceeded_none_right (m : Option Int) : maxAgeExceeded m none = false := by
  cases m <;> rfl

theorem allowedGateFails_none_right (l : Option (List String)) :
    allowedGateFails l none = false := by
  cases l <;> rfl

theorem deniedGateFails_none_right (l : Option (List String)) :
    deniedGateFails l none = false := by
  cases l <;> rfl

/-- The single check produced by `validateDocument` on an empty mapping. -/
def emptyMappingCheck : ValidationCheck :=
  ⟨"confidence", true, "All extracted fields have acceptable confidence scores"⟩

theorem validateDocument_empty (now : Date) (app : ApplicantData) :
    validateDocument now [] app = [emptyMappingCheck] := by
  unfold validateDocument expiryChecks issueChecks nameChecks dobChecks docNumChecks
    nationalityChecks mrzChecks docTypeChecks confidenceChecks emptyMappingCheck
  simp [fieldValue, getField]

theorem assessEligibility_empty_fields_eligible (now : Date) (app : ApplicantData) :
    (assessEligibility now [] app [emptyMappingCheck]).eligible = true := by
  have hcf : criticalFailuresOf
      [(⟨"confidence", true, "All extracted fields have acceptable confidence scores"⟩ :
        ValidationCheck)] = [] := by decide
  unfold assessEligibility
  simp [hcf, eligAge, fieldValue, getField, jsLtI, maxAgeExceeded_none_right,
    allowedGateFails_none_right, deniedGateFails_none_right, validityGateFails,
    lowConfidenceCount, passRateOf, emptyMappingCheck]
  norm_num

/-- C9: on the entirely empty extracted-field mapping and ANY applicant
claim, `validateDocument` emits exactly the single passed confidence check,
`assessEligibility` on that output is eligible, and
`calculateOverallConfidence` is exactly 70 (field average defaulted to 50,
validation score 100, round(0.6*50 + 0.4*100) = 70). -/
theorem claim_C9_empty_extraction (now : Date) (app : ApplicantData) :
    validateDocument now [] app = [emptyMappingCheck] ∧
    (assessEligibility now [] app (validateDocument now [] app)).eligible = true ∧
    calculateOverallConfidence [] (validateDocument now [] app) = 70 := by
  have h1 := validateDocument_empty now app
  refine ⟨h1, ?_, ?_⟩
  · rw [h1]
    exact assessEligibility_empty_fields_eligible now app
  · rw [h1]
    norm_num [calculateOverallConfidence, jsRound, emptyMappingCheck, List.filter]

/-- C10: `generateRecommendations` can return the empty sequence even though
a check failed: a single failed documentType check (field name free of the
expiry/MRZ/checksum/name substrings) with an eligible assessment triggers no
advisory line, so a non-empty failure set does not guarantee non-empty
recommendations. -/
theorem claim_C10_generateRecommendations_empty :
    ([(⟨"documentType", false, "Unrecognized document type"⟩ : ValidationCheck)].any
        (fun c => !c.passed)) = true ∧
    (⟨true, "ok", "tourist"⟩ : EligibilityResult).eligible = true ∧
    generateRecommendations [⟨"documentType", false, "Unrecognized document type"⟩]
        ⟨true, "ok", "tourist"⟩ = [] := by
  refine ⟨rfl, rfl, rfl⟩
